import Mathlib

/-!
Shallow embedding of the `fetch-sync-via-deno` repository.

The repository has two parallel implementations of the same design:

* an argument-mode pair — the Bridge `fetchSyncViaDeno` in `src/mod.ts`
  (spawning via `Deno.Command` + `outputSync`, URL passed as argv) and the
  Executor worker in `unnamed/part_001` (reads the URL from `Deno.args`);
* a piped-input pair — the Bridge `fetchSyncViaDeno` in `unnamed/part_000`
  (spawning via Node `spawnSync` with the request serialized onto stdin,
  `timeout: 30000`, `maxBuffer: 1024*1024`) and the Executor worker in
  `src/mod.worker.ts` (reads a JSON request descriptor from stdin).

External collaborators (the `fetch` network layer, the process-spawn
facility, `JSON.parse`) are modelled as oracles quantified over in the
theorems; the repository's own control flow and the exact strings it
builds are translated line by line from the source.

JavaScript truthiness conventions used throughout the embedding:
`null`/`undefined` are modelled by `Option.none`; a string-valued
expression tested for truthiness is truthy iff it is `some s` with
`s ≠ ""`; `x || d` on a possibly-null string is `Option.getD`.
-/

/-- The `FetchResult` record shape shared by both Bridges and both Executor
workers (`interface FetchResult` / `interface WorkerOutput`): nullable
`status`, `statusText`, `body`, `error`, a boolean `ok`, and a
string-to-string `headers` record (modelled as an association list in
insertion order). -/
structure FetchResult where
  status : Option Int
  statusText : Option String
  ok : Bool
  headers : List (String × String)
  body : Option String
  error : Option String
deriving Repr, DecidableEq

/-- JavaScript truthiness of a nullable string: `null`/`undefined` and the
empty string are falsy, every other string is truthy. -/
def optStrTruthy : Option String → Bool
  | some s => s != ""
  | none => false

/-- Character-list test that `pat` is an initial segment of `l`. -/
def leadsWith : List Char → List Char → Bool
  | [], _ => true
  | _ :: _, [] => false
  | p :: ps, x :: xs => p = x && leadsWith ps xs

/-- Character-list substring search: `pat` occurs somewhere in `l`. -/
def containsSeq (pat : List Char) : List Char → Bool
  | [] => leadsWith pat []
  | x :: xs => leadsWith pat (x :: xs) || containsSeq pat xs

/-- JavaScript `line.includes(pat)`. -/
def strContains (line pat : String) : Bool :=
  containsSeq pat.data line.data

/-- JavaScript `s.split("\n")`: split on every newline; the empty string
yields a single empty piece. -/
def splitCharAux (c : Char) : List Char → List Char → List (List Char)
  | [], acc => [acc.reverse]
  | x :: xs, acc =>
      if x = c then acc.reverse :: splitCharAux c xs []
      else splitCharAux c xs (x :: acc)

/-- JavaScript `s.split("\n")` at the `String` level. -/
def jsSplitLines (s : String) : List String :=
  (splitCharAux '\n' s.data []).map (fun l => String.mk l)

/-- Interleave a separator character between character-list pieces. -/
def intercalChar (c : Char) : List (List Char) → List Char
  | [] => []
  | [l] => l
  | l :: ls => l ++ c :: intercalChar c ls

/-- JavaScript `parts.join("\n")`. -/
def jsJoinLines (parts : List String) : String :=
  String.mk (intercalChar '\n' (parts.map String.data))

/-- JavaScript `s.trim()`: strip whitespace from both ends. -/
def jsTrim (s : String) : String :=
  String.mk
    (((s.data.dropWhile Char.isWhitespace).reverse.dropWhile
      Char.isWhitespace).reverse)

/-- The subset of a `RequestInit` options object that the Bridges inspect
directly: only `options.method` feeds the `requestDesc` log/message string. -/
structure RequestInitM where
  method : Option String
deriving Repr, DecidableEq

/-- JavaScript `options.method || "GET"`: a missing or empty method string
falls back to `"GET"`. -/
def methodOrGet : Option String → String
  | some m => if m = "" then "GET" else m
  | none => "GET"

/-- The request description string `` `${options.method || "GET"} ${url}` ``
used inside the piped-input Bridge's diagnostic and error messages. -/
def requestDesc (url : String) (options : RequestInitM) : String :=
  methodOrGet options.method ++ " " ++ url

/-- Model of the external `fetch` `Response` object as far as the Executors
read it: a numeric status, a status text, and the header iteration order
imposed by the HTTP client. -/
structure ResponseM where
  status : Int
  statusText : String
  headers : List (String × String)
deriving Repr, DecidableEq

/-- The standard `Response.ok` getter of the external fetch collaborator
(assumed per the design to behave like a standard fetch implementation):
true iff the status is in [200, 300). -/
def ResponseM.ok (r : ResponseM) : Bool :=
  decide (200 ≤ r.status ∧ r.status < 300)

/-- JavaScript object property assignment `rec[k] = v`: an existing key keeps
its position and gets the new value, a new key is appended. -/
def recordSet (rec : List (String × String)) (k v : String) :
    List (String × String) :=
  if rec.any (fun p => p.1 = k) then
    rec.map (fun p => if p.1 = k then (k, v) else p)
  else rec ++ [(k, v)]

/-- The header-collection loop of both Executors
(`response.headers.forEach((value, key) => { headers[key] = value })`):
later duplicate keys overwrite earlier ones. -/
def recordOfHeaders (hs : List (String × String)) : List (String × String) :=
  hs.foldl (fun rec kv => recordSet rec kv.1 kv.2) []

deriving instance DecidableEq for Except

/-- Oracle for the one asynchronous network call an Executor performs.
`fetchError errText` models the `fetch` promise rejecting, with `errText`
the source expression
`` fetchError instanceof Error ? `${fetchError.name}: ${fetchError.message}` : String(fetchError) ``
shared by both workers; `gotResponse resp bodyResult` models `fetch`
resolving to `resp`, after which `response.text()` either resolves
(`Except.ok body`) or rejects (`Except.error msg`, with `msg` the
`bodyError instanceof Error ? bodyError.message : String(bodyError)`
expression shared by both workers). -/
inductive FetchOutcome where
  | fetchError (errText : String)
  | gotResponse (resp : ResponseM) (bodyResult : Except String String)
deriving Repr, DecidableEq

/-- The piped-input worker's view of what `JSON.parse(stdinText)` produced:
`url` is `some s` exactly when the parsed value has a string-typed `url`
property equal to `s` (`typeof url === "string"`), and `optionsIsObject`
states whether `typeof options === "object" && options !== null`. -/
structure WorkerInputV where
  url : Option String
  optionsIsObject : Bool
deriving Repr, DecidableEq

/-- Oracle for the stdin-processing stage of the piped-input worker:
`readError msg` models `readAll`/decode/`JSON.parse` throwing (with `msg`
the `inputError instanceof Error ? inputError.message : String(inputError)`
expression); `parsed input` models a successful parse. -/
inductive StdinOutcome where
  | readError (msg : String)
  | parsed (input : WorkerInputV)
deriving Repr, DecidableEq

namespace PipedWorker

/-- The stdin validation of `src/mod.worker.ts` `main` (steps 1-3 plus the
basic input validation): the message of the error thrown, if any. The
`url` check (`typeof url !== "string" || !url`) runs before the `options`
check (`typeof options !== "object" || options === null`). -/
def inputErrOf : StdinOutcome → Option String
  | StdinOutcome.readError msg => some msg
  | StdinOutcome.parsed input =>
      match input.url with
      | none => some ("Invalid or missing \x27url\x27 in stdin JSON.")
      | some u =>
          if u = "" then some ("Invalid or missing \x27url\x27 in stdin JSON.")
          else if input.optionsIsObject then none
          else some ("Invalid or missing \x27options\x27 object in stdin JSON.")

/-- The `main` function of the piped-input Executor `src/mod.worker.ts`,
returning the single JSON object written to stdout together with the
process exit code. -/
def main (stdin : StdinOutcome) (f : FetchOutcome) : FetchResult × Int :=
  match inputErrOf stdin with
  | some msg =>
      ({ status := none, statusText := none, ok := false, headers := [],
         body := none,
         error := some ("Worker: Failed to process stdin: " ++ msg) }, 1)
  | none =>
      match f with
      | FetchOutcome.fetchError errText =>
          ({ status := none, statusText := none, ok := false, headers := [],
             body := none, error := some ("Fetch failed: " ++ errText) }, 1)
      | FetchOutcome.gotResponse resp bodyResult =>
          let headers := recordOfHeaders resp.headers
          match bodyResult with
          | Except.error msg =>
              ({ status := some resp.status, statusText := some resp.statusText,
                 ok := ResponseM.ok resp, headers := headers, body := none,
                 error := some ("Failed to read response body: " ++ msg) }, 1)
          | Except.ok body =>
              ({ status := some resp.status, statusText := some resp.statusText,
                 ok := ResponseM.ok resp, headers := headers, body := some body,
                 error := none }, 0)

end PipedWorker

namespace ArgWorker

/-- The usage check of the argument-mode Executor `unnamed/part_001`:
`Deno.args.length === 0 || !Deno.args[0]`. -/
def usageError (args : List String) : Bool :=
  args.isEmpty || (args.headD "" == "")

/-- The `main` function of the argument-mode Executor `unnamed/part_001`,
returning the single JSON object written to stdout together with the
process exit code. -/
def main (args : List String) (f : FetchOutcome) : FetchResult × Int :=
  if usageError args then
    ({ status := none, statusText := none, ok := false, headers := [],
       body := none,
       error := some ("Usage: deno run --allow-net fetch_worker.ts <url>") }, 1)
  else
    match f with
    | FetchOutcome.fetchError errText =>
        ({ status := none, statusText := none, ok := false, headers := [],
           body := none, error := some errText }, 1)
    | FetchOutcome.gotResponse resp bodyResult =>
        let headers := recordOfHeaders resp.headers
        match bodyResult with
        | Except.error msg =>
            ({ status := some resp.status, statusText := some resp.statusText,
               ok := ResponseM.ok resp, headers := headers, body := none,
               error := some ("Failed to read response body: " ++ msg) }, 1)
        | Except.ok body =>
            ({ status := some resp.status, statusText := some resp.statusText,
               ok := ResponseM.ok resp, headers := headers, body := some body,
               error := none }, 0)

end ArgWorker

/-- Result record of Node's `spawnSync` as the piped-input Bridge reads it:
`error` is the message of `spawnResult.error` when spawn/timeout/buffer
failure occurred (an `Error` object is always truthy), `stdout`/`stderr`
are the captured streams (null when unavailable), and `status` is the
child exit code, null when the child was terminated by a signal. -/
structure SpawnResult where
  error : Option String
  stdout : Option String
  stderr : Option String
  status : Option Int
deriving Repr, DecidableEq

/-- Outcome of the piped-input Bridge's guarded body: either some step of
the Bridge itself threw (`thrown msg`, landing in the outer `catch` with
`msg` the `error instanceof Error ? error.message : String(error)`
expression), or `spawnSync` returned a result record. -/
inductive SpawnOutcome where
  | thrown (msg : String)
  | completed (res : SpawnResult)
deriving Repr, DecidableEq

/-- The options record the piped-input Bridge passes to `spawnSync`
(`unnamed/part_000` lines 122-127): the serialized request on stdin, UTF-8
encoding, a 30-second timeout and a 1 MiB output buffer bound. -/
structure SpawnSyncOptions where
  input : String
  encoding : String
  timeout : Option Nat
  maxBuffer : Option Nat
deriving Repr, DecidableEq

namespace Piped

/-- The stderr noise filter of the piped-input Bridge: split into lines,
drop lines containing any of the four known-noisy substrings, rejoin with
newlines, trim. -/
def filteredStderrOf (stderrText : String) : String :=
  jsTrim (jsJoinLines ((jsSplitLines stderrText).filter (fun line =>
    !(strContains line ("Warning The `--unstable` flag is deprecated")) &&
    !(strContains line ("Check file:")) &&
    !(strContains line ("Download")) &&
    !(strContains line ("Compile")))))

/-- JavaScript `spawnResult.status || 0`: a null exit status (child killed
by a signal) and an explicit status 0 both yield exit code 0. -/
def exitCodeOf (res : SpawnResult) : Int :=
  res.status.getD 0

/-- The stdout-parsing step of the piped-input Bridge: parsing is attempted
only when `stdoutText` is truthy; `parse s = some r` models `JSON.parse(s)`
succeeding with a truthy value whose property reads give the fields of `r`,
and `none` models `JSON.parse` throwing (or yielding a falsy value, which
the Bridge treats identically). -/
def parsedResultOf (parse : String → Option FetchResult) (res : SpawnResult) :
    Option FetchResult :=
  if res.stdout.getD "" = "" then none else parse (res.stdout.getD "")

/-- JavaScript `parsedResult?.headers ?? {}`. -/
def parsedHeadersD : Option FetchResult → List (String × String)
  | some p => p.headers
  | none => []

/-- The `spawnSync` options object built on every call of the piped-input
Bridge, with the serialized `WorkerInput` JSON as the stdin payload. -/
def spawnOptions (workerInputJson : String) : SpawnSyncOptions :=
  { input := workerInputJson, encoding := "utf8",
    timeout := some 30000, maxBuffer := some (1024 * 1024) }

/-- The piped-input Bridge `fetchSyncViaDeno` of `unnamed/part_000`: its
whole body runs inside `try`/`catch`/`finally`, so an exception in any of
its own steps is the `SpawnOutcome.thrown` case and produces the internal
error result; otherwise the `spawnSync` result is reconciled exactly as in
the source (spawn error first, then exit code, then parsed stdout). -/
def fetchSyncViaDeno (url : String) (options : RequestInitM)
    (parse : String → Option FetchResult) (outcome : SpawnOutcome) :
    FetchResult :=
  match outcome with
  | SpawnOutcome.thrown msg =>
      { status := none, statusText := none, ok := false, headers := [],
        body := none,
        error := some ("Internal error in fetchSyncViaDeno: " ++ msg) }
  | SpawnOutcome.completed res =>
      let stdoutText := res.stdout.getD ""
      let exitCode := exitCodeOf res
      let filteredStderr := filteredStderrOf (res.stderr.getD "")
      match res.error with
      | some errorDetail =>
          { status := none, statusText := none, ok := false, headers := [],
            body := none,
            error := some ("Failed to execute subprocess: " ++ errorDetail) }
      | none =>
          let parsedResult := parsedResultOf parse res
          if exitCode = 0 then
            match parsedResult with
            | some parsed => parsed
            | none =>
                { status := none, statusText := none, ok := false,
                  headers := [], body := some stdoutText,
                  error := some ("Subprocess for " ++ requestDesc url options ++
                    " exited successfully (code 0) but produced non-JSON stdout. Stderr: " ++
                    (if filteredStderr = "" then "(empty)" else filteredStderr)) }
          else
            let baseErrorMsg := "Subprocess for " ++ requestDesc url options ++
              " failed with code " ++ toString exitCode ++ "."
            let extraInfo :=
              if filteredStderr ≠ "" then " Stderr: " ++ filteredStderr
              else if stdoutText ≠ "" ∧ parsedResult = none then
                " Raw stdout: " ++ stdoutText
              else ""
            let fallback : FetchResult :=
              { status := parsedResult.bind FetchResult.status,
                statusText := parsedResult.bind FetchResult.statusText,
                ok := false,
                headers := parsedHeadersD parsedResult,
                body := parsedResult.bind FetchResult.body,
                error := some (baseErrorMsg ++ extraInfo) }
            match parsedResult with
            | some parsed =>
                if optStrTruthy parsed.error then parsed else fallback
            | none => fallback

end Piped

/-- Result of `Deno.Command.outputSync` as the argument-mode Bridge reads
it: the exit code (always a number for a process that ran) and the decoded
stdout/stderr texts. A failure to spawn at all makes `outputSync` throw,
which is the `thrown` case of `RunOutcome`. -/
structure CommandOutput where
  code : Int
  stdout : String
  stderr : String
deriving Repr, DecidableEq

/-- Outcome of the argument-mode Bridge's guarded body: either some step
threw (caught by the outer `catch`, message per
`spawnError instanceof Error ? spawnError.message : String(spawnError)`),
or the command ran to completion. -/
inductive RunOutcome where
  | thrown (msg : String)
  | completed (output : CommandOutput)
deriving Repr, DecidableEq

/-- The options the argument-mode Bridge passes to `Deno.Command`
(`src/mod.ts` lines 81-92): argv for the worker and piped stdio. The
`timeout`/`maxBuffer` fields record that no wall-clock or output-size bound
is configured in this mode — `Deno.Command` is invoked with neither. -/
structure DenoCommandOptions where
  args : List String
  stdout : String
  stderr : String
  timeout : Option Nat
  maxBuffer : Option Nat
deriving Repr, DecidableEq

namespace ArgMode

/-- The stderr noise filter of the argument-mode Bridge: only the two
substring filters present in `src/mod.ts`. -/
def filteredStderrOf (stderrText : String) : String :=
  jsTrim (jsJoinLines ((jsSplitLines stderrText).filter (fun line =>
    !(strContains line ("Warning The `--unstable` flag is deprecated")) &&
    !(strContains line ("Check file:")))))

/-- The stdout-parsing step of the argument-mode Bridge, same convention as
`Piped.parsedResultOf`. -/
def parsedResultOf (parse : String → Option FetchResult)
    (output : CommandOutput) : Option FetchResult :=
  if output.stdout = "" then none else parse output.stdout

/-- The `Deno.Command` options object built on every call of the
argument-mode Bridge: no timeout and no output buffer bound are set. -/
def commandOptions (workerScriptPath url : String) : DenoCommandOptions :=
  { args := ["run", "--allow-net", "--no-check", workerScriptPath, url],
    stdout := "piped", stderr := "piped",
    timeout := none, maxBuffer := none }

/-- The argument-mode Bridge `fetchSyncViaDeno` of `src/mod.ts`: the outer
`try`/`catch` converts a spawn exception into the spawn-failure result; a
completed run is reconciled on exit code and parsed stdout. In the
non-zero-exit synthesized result this Bridge hard-codes `status` and
`statusText` to null, keeping only parsed `headers` and `body`. -/
def fetchSyncViaDeno (url : String)
    (parse : String → Option FetchResult) (outcome : RunOutcome) :
    FetchResult :=
  match outcome with
  | RunOutcome.thrown msg =>
      { status := none, statusText := none, ok := false, headers := [],
        body := none,
        error := some ("Failed to spawn Deno subprocess: " ++ msg) }
  | RunOutcome.completed output =>
      let stdoutText := output.stdout
      let filteredStderr := filteredStderrOf output.stderr
      let parsedResult := parsedResultOf parse output
      if output.code = 0 then
        match parsedResult with
        | some parsed => parsed
        | none =>
            { status := none, statusText := none, ok := false, headers := [],
              body := some stdoutText,
              error := some ("Subprocess for " ++ url ++
                " exited successfully (code 0) but produced non-JSON stdout. Stderr: " ++
                (if filteredStderr = "" then "(empty)" else filteredStderr)) }
      else
        let baseErrorMsg := "Subprocess for " ++ url ++
          " failed with code " ++ toString output.code ++ "."
        let extraInfo :=
          if filteredStderr ≠ "" then " Stderr: " ++ filteredStderr
          else if stdoutText ≠ "" ∧ parsedResult = none then
            " Raw stdout: " ++ stdoutText
          else ""
        let fallback : FetchResult :=
          { status := none, statusText := none, ok := false,
            headers := Piped.parsedHeadersD parsedResult,
            body := parsedResult.bind FetchResult.body,
            error := some (baseErrorMsg ++ extraInfo) }
        match parsedResult with
        | some parsed =>
            if optStrTruthy parsed.error then parsed else fallback
        | none => fallback

end ArgMode

/-- The `ok`/`status` invariant claimed of every `FetchResult` the system
produces: `ok` is true iff `status` is present and in [200, 300). -/
def resultInv (r : FetchResult) : Bool :=
  r.ok == (match r.status with
    | some s => decide (200 ≤ s ∧ s < 300)
    | none => false)

/-- Branch (a) of the piped-input Bridge reconciliation: `spawnSync`
reported a spawn/timeout/buffer failure. -/
theorem Piped.run_spawnErr (url : String) (options : RequestInitM)
    (parse : String → Option FetchResult) (res : SpawnResult) (d : String)
    (h : res.error = some d) :
    Piped.fetchSyncViaDeno url options parse (SpawnOutcome.completed res) =
      { status := none, statusText := none, ok := false, headers := [],
        body := none,
        error := some ("Failed to execute subprocess: " ++ d) } := by
  simp [Piped.fetchSyncViaDeno, h]

/-- Branch (b) of the piped-input Bridge reconciliation: computed exit code
0 with parseable stdout returns the parsed object verbatim. -/
theorem Piped.run_exit0_parsed (url : String) (options : RequestInitM)
    (parse : String → Option FetchResult) (res : SpawnResult)
    (r : FetchResult) (he : res.error = none)
    (hc : Piped.exitCodeOf res = 0)
    (hp : Piped.parsedResultOf parse res = some r) :
    Piped.fetchSyncViaDeno url options parse (SpawnOutcome.completed res) =
      r := by
  simp [Piped.fetchSyncViaDeno, he, hc, hp]

/-- Branch (c) of the piped-input Bridge reconciliation: computed exit code
0 with unparseable stdout. -/
theorem Piped.run_exit0_noparse (url : String) (options : RequestInitM)
    (parse : String → Option FetchResult) (res : SpawnResult)
    (he : res.error = none) (hc : Piped.exitCodeOf res = 0)
    (hp : Piped.parsedResultOf parse res = none) :
    Piped.fetchSyncViaDeno url options parse (SpawnOutcome.completed res) =
      { status := none, statusText := none, ok := false, headers := [],
        body := some (res.stdout.getD ""),
        error := some ("Subprocess for " ++ requestDesc url options ++
          " exited successfully (code 0) but produced non-JSON stdout. Stderr: " ++
          (if Piped.filteredStderrOf (res.stderr.getD "") = "" then "(empty)"
           else Piped.filteredStderrOf (res.stderr.getD ""))) } := by
  simp [Piped.fetchSyncViaDeno, he, hc, hp]

/-- Branch (d) of the piped-input Bridge reconciliation: non-zero exit code
with parseable stdout carrying a truthy `error` returns the parsed object
verbatim. -/
theorem Piped.run_fail_parsedErr (url : String) (options : RequestInitM)
    (parse : String → Option FetchResult) (res : SpawnResult)
    (r : FetchResult) (he : res.error = none)
    (hc : Piped.exitCodeOf res ≠ 0)
    (hp : Piped.parsedResultOf parse res = some r)
    (ht : optStrTruthy r.error = true) :
    Piped.fetchSyncViaDeno url options parse (SpawnOutcome.completed res) =
      r := by
  simp [Piped.fetchSyncViaDeno, he, hc, hp, ht]

/-- Branch (e) of the piped-input Bridge reconciliation: non-zero exit code
and no authoritative parsed error — a result is synthesized, preserving any
parsed `status`/`statusText`/`headers`/`body`. -/
theorem Piped.run_fail_synth (url : String) (options : RequestInitM)
    (parse : String → Option FetchResult) (res : SpawnResult)
    (he : res.error = none) (hc : Piped.exitCodeOf res ≠ 0)
    (hp : ∀ r, Piped.parsedResultOf parse res = some r →
      optStrTruthy r.error = false) :
    Piped.fetchSyncViaDeno url options parse (SpawnOutcome.completed res) =
      { status := (Piped.parsedResultOf parse res).bind FetchResult.status,
        statusText :=
          (Piped.parsedResultOf parse res).bind FetchResult.statusText,
        ok := false,
        headers := Piped.parsedHeadersD (Piped.parsedResultOf parse res),
        body := (Piped.parsedResultOf parse res).bind FetchResult.body,
        error := some ("Subprocess for " ++ requestDesc url options ++
          " failed with code " ++ toString (Piped.exitCodeOf res) ++ "." ++
          (if Piped.filteredStderrOf (res.stderr.getD "") ≠ "" then
            " Stderr: " ++ Piped.filteredStderrOf (res.stderr.getD "")
           else if res.stdout.getD "" ≠ "" ∧
               Piped.parsedResultOf parse res = none then
            " Raw stdout: " ++ res.stdout.getD ""
           else "")) } := by
  cases hpr : Piped.parsedResultOf parse res with
  | none => simp [Piped.fetchSyncViaDeno, he, hc, hpr]
  | some r =>
      have := hp r hpr
      simp [Piped.fetchSyncViaDeno, he, hc, hpr, this]

/-- The thrown branch of the argument-mode Bridge. -/
theorem ArgMode.argRun_thrown (url : String)
    (parse : String → Option FetchResult) (msg : String) :
    ArgMode.fetchSyncViaDeno url parse (RunOutcome.thrown msg) =
      { status := none, statusText := none, ok := false, headers := [],
        body := none,
        error := some ("Failed to spawn Deno subprocess: " ++ msg) } := rfl

/-- Branch (b) of the argument-mode Bridge reconciliation. -/
theorem ArgMode.argRun_exit0_parsed (url : String)
    (parse : String → Option FetchResult) (output : CommandOutput)
    (r : FetchResult) (hc : output.code = 0)
    (hp : ArgMode.parsedResultOf parse output = some r) :
    ArgMode.fetchSyncViaDeno url parse (RunOutcome.completed output) = r := by
  simp [ArgMode.fetchSyncViaDeno, hc, hp]

/-- Branch (c) of the argument-mode Bridge reconciliation. -/
theorem ArgMode.argRun_exit0_noparse (url : String)
    (parse : String → Option FetchResult) (output : CommandOutput)
    (hc : output.code = 0)
    (hp : ArgMode.parsedResultOf parse output = none) :
    ArgMode.fetchSyncViaDeno url parse (RunOutcome.completed output) =
      { status := none, statusText := none, ok := false, headers := [],
        body := some output.stdout,
        error := some ("Subprocess for " ++ url ++
          " exited successfully (code 0) but produced non-JSON stdout. Stderr: " ++
          (if ArgMode.filteredStderrOf output.stderr = "" then "(empty)"
           else ArgMode.filteredStderrOf output.stderr)) } := by
  simp [ArgMode.fetchSyncViaDeno, hc, hp]

/-- Branch (d) of the argument-mode Bridge reconciliation. -/
theorem ArgMode.argRun_fail_parsedErr (url : String)
    (parse : String → Option FetchResult) (output : CommandOutput)
    (r : FetchResult) (hc : output.code ≠ 0)
    (hp : ArgMode.parsedResultOf parse output = some r)
    (ht : optStrTruthy r.error = true) :
    ArgMode.fetchSyncViaDeno url parse (RunOutcome.completed output) = r := by
  simp [ArgMode.fetchSyncViaDeno, hc, hp, ht]

/-- Branch (e) of the argument-mode Bridge reconciliation: unlike the
piped-input Bridge, `status` and `statusText` are hard-coded to null here;
only parsed `headers` and `body` survive. -/
theorem ArgMode.argRun_fail_synth (url : String)
    (parse : String → Option FetchResult) (output : CommandOutput)
    (hc : output.code ≠ 0)
    (hp : ∀ r, ArgMode.parsedResultOf parse output = some r →
      optStrTruthy r.error = false) :
    ArgMode.fetchSyncViaDeno url parse (RunOutcome.completed output) =
      { status := none, statusText := none, ok := false,
        headers := Piped.parsedHeadersD (ArgMode.parsedResultOf parse output),
        body := (ArgMode.parsedResultOf parse output).bind FetchResult.body,
        error := some ("Subprocess for " ++ url ++
          " failed with code " ++ toString output.code ++ "." ++
          (if ArgMode.filteredStderrOf output.stderr ≠ "" then
            " Stderr: " ++ ArgMode.filteredStderrOf output.stderr
           else if output.stdout ≠ "" ∧
               ArgMode.parsedResultOf parse output = none then
            " Raw stdout: " ++ output.stdout
           else "")) } := by
  cases hpr : ArgMode.parsedResultOf parse output with
  | none => simp [ArgMode.fetchSyncViaDeno, hc, hpr]
  | some r =>
      have := hp r hpr
      simp [ArgMode.fetchSyncViaDeno, hc, hpr, this]

/-- A truthy nullable string is in particular non-null. -/
theorem optStrTruthy_isSome (e : Option String) (h : optStrTruthy e = true) :
    e.isSome = true := by
  cases e with
  | none => simp [optStrTruthy] at h
  | some s => rfl

/-- C1: for every input and every behaviour of the spawned child, the
blocking fetch operation never raises: both Bridge functions are total
(exceptions inside their own steps are the `thrown` case, absorbed by the
outer catch), always returning a fully populated `FetchResult`; and in
every failure mode — internal exception, spawn/timeout failure, non-zero
exit, or unparseable stdout — the returned result carries a non-null
`error` string. -/
theorem C1_never_raises_and_failure_has_error :
    (∀ url options parse outcome,
      (match outcome with
       | SpawnOutcome.thrown _ => True
       | SpawnOutcome.completed res =>
           res.error ≠ none ∨ Piped.exitCodeOf res ≠ 0 ∨
           Piped.parsedResultOf parse res = none) →
      (Piped.fetchSyncViaDeno url options parse outcome).error.isSome =
        true) ∧
    (∀ url parse outcome,
      (match outcome with
       | RunOutcome.thrown _ => True
       | RunOutcome.completed output =>
           output.code ≠ 0 ∨ ArgMode.parsedResultOf parse output = none) →
      (ArgMode.fetchSyncViaDeno url parse outcome).error.isSome = true) := by
  constructor
  · intro url options parse outcome h
    cases outcome with
    | thrown msg => simp [Piped.fetchSyncViaDeno]
    | completed res =>
        cases he : res.error with
        | some d =>
            rw [Piped.run_spawnErr url options parse res d he]
            rfl
        | none =>
            by_cases hc : Piped.exitCodeOf res = 0
            · have hp : Piped.parsedResultOf parse res = none := by
                rcases h with h1 | h2 | h3
                · exact absurd he h1
                · exact absurd hc h2
                · exact h3
              rw [Piped.run_exit0_noparse url options parse res he hc hp]
              rfl
            · cases hp : Piped.parsedResultOf parse res with
              | some r =>
                  by_cases ht : optStrTruthy r.error = true
                  · rw [Piped.run_fail_parsedErr url options parse res r he
                      hc hp ht]
                    exact optStrTruthy_isSome r.error ht
                  · have hsome : ∀ r',
                        Piped.parsedResultOf parse res = some r' →
                        optStrTruthy r'.error = false := by
                      intro r' hr'
                      rw [hp] at hr'
                      cases Option.some.inj hr'
                      simpa using ht
                    rw [Piped.run_fail_synth url options parse res he hc
                      hsome]
                    rfl
              | none =>
                  have hsome : ∀ r',
                      Piped.parsedResultOf parse res = some r' →
                      optStrTruthy r'.error = false := by
                    intro r' hr'
                    rw [hp] at hr'
                    exact absurd hr' (by simp)
                  rw [Piped.run_fail_synth url options parse res he hc hsome]
                  rfl
  · intro url parse outcome h
    cases outcome with
    | thrown msg => simp [ArgMode.fetchSyncViaDeno]
    | completed output =>
        by_cases hc : output.code = 0
        · have hp : ArgMode.parsedResultOf parse output = none := by
            rcases h with h1 | h2
            · exact absurd hc h1
            · exact h2
          rw [ArgMode.argRun_exit0_noparse url parse output hc hp]
          rfl
        · cases hp : ArgMode.parsedResultOf parse output with
          | some r =>
              by_cases ht : optStrTruthy r.error = true
              · rw [ArgMode.argRun_fail_parsedErr url parse output r hc hp ht]
                exact optStrTruthy_isSome r.error ht
              · have hsome : ∀ r',
                    ArgMode.parsedResultOf parse output = some r' →
                    optStrTruthy r'.error = false := by
                  intro r' hr'
                  rw [hp] at hr'
                  cases Option.some.inj hr'
                  simpa using ht
                rw [ArgMode.argRun_fail_synth url parse output hc hsome]
                rfl
          | none =>
              have hsome : ∀ r',
                  ArgMode.parsedResultOf parse output = some r' →
                  optStrTruthy r'.error = false := by
                intro r' hr'
                rw [hp] at hr'
                exact absurd hr' (by simp)
              rw [ArgMode.argRun_fail_synth url parse output hc hsome]
              rfl

/-- Concrete instantiation of the C1 theorem: a thrown spawn failure for
the piped-input Bridge still yields a result with a non-null error. -/
theorem C1_witness :
    (Piped.fetchSyncViaDeno "u" { method := none } (fun _ => none)
      (SpawnOutcome.thrown "boom")).error.isSome = true :=
  C1_never_raises_and_failure_has_error.1 "u" { method := none }
    (fun _ => none) (SpawnOutcome.thrown "boom") trivial

/-- C2: every `FetchResult` the system produces satisfies the invariant
that `ok` is true iff `status` is present and in [200, 300): both Executor
workers satisfy it unconditionally on every path, and each Bridge
preserves it given that any value its stdout parse yields is
Executor-consistent — it satisfies the invariant and, for a run with
non-zero exit code, carries a truthy `error` (which is exactly what the
Executors guarantee: their non-zero-exit outputs always carry a non-empty
error message). -/
theorem C2_ok_iff_status_in_2xx :
    (∀ stdin f, resultInv (PipedWorker.main stdin f).1 = true) ∧
    (∀ args f, resultInv (ArgWorker.main args f).1 = true) ∧
    (∀ url options parse outcome,
      (∀ res r, outcome = SpawnOutcome.completed res →
        Piped.parsedResultOf parse res = some r →
        resultInv r = true ∧
          (Piped.exitCodeOf res ≠ 0 → optStrTruthy r.error = true)) →
      resultInv (Piped.fetchSyncViaDeno url options parse outcome) = true) ∧
    (∀ url parse outcome,
      (∀ output r, outcome = RunOutcome.completed output →
        ArgMode.parsedResultOf parse output = some r →
        resultInv r = true ∧
          (output.code ≠ 0 → optStrTruthy r.error = true)) →
      resultInv (ArgMode.fetchSyncViaDeno url parse outcome) = true) := by
  refine ⟨?_, ?_, ?_, ?_⟩
  · intro stdin f
    cases hi : PipedWorker.inputErrOf stdin with
    | some msg => simp [PipedWorker.main, hi, resultInv]
    | none =>
        cases f with
        | fetchError errText => simp [PipedWorker.main, hi, resultInv]
        | gotResponse resp bodyResult =>
            cases bodyResult with
            | ok body => simp [PipedWorker.main, hi, resultInv, ResponseM.ok]
            | error msg => simp [PipedWorker.main, hi, resultInv, ResponseM.ok]
  · intro args f
    by_cases hu : ArgWorker.usageError args
    · simp [ArgWorker.main, hu, resultInv]
    · cases f with
      | fetchError errText => simp [ArgWorker.main, hu, resultInv]
      | gotResponse resp bodyResult =>
          cases bodyResult with
          | ok body => simp [ArgWorker.main, hu, resultInv, ResponseM.ok]
          | error msg => simp [ArgWorker.main, hu, resultInv, ResponseM.ok]
  · intro url options parse outcome hcons
    cases outcome with
    | thrown msg => simp [Piped.fetchSyncViaDeno, resultInv]
    | completed res =>
        cases he : res.error with
        | some d =>
            rw [Piped.run_spawnErr url options parse res d he]
            rfl
        | none =>
            by_cases hc : Piped.exitCodeOf res = 0
            · cases hp : Piped.parsedResultOf parse res with
              | some r =>
                  rw [Piped.run_exit0_parsed url options parse res r he hc hp]
                  exact (hcons res r rfl hp).1
              | none =>
                  rw [Piped.run_exit0_noparse url options parse res he hc hp]
                  rfl
            · cases hp : Piped.parsedResultOf parse res with
              | some r =>
                  have ht : optStrTruthy r.error = true :=
                    (hcons res r rfl hp).2 hc
                  rw [Piped.run_fail_parsedErr url options parse res r he hc
                    hp ht]
                  exact (hcons res r rfl hp).1
              | none =>
                  have hsome : ∀ r',
                      Piped.parsedResultOf parse res = some r' →
                      optStrTruthy r'.error = false := by
                    intro r' hr'
                    rw [hp] at hr'
                    exact absurd hr' (by simp)
                  rw [Piped.run_fail_synth url options parse res he hc hsome]
                  simp [hp, resultInv, Piped.parsedHeadersD]
  · intro url parse outcome hcons
    cases outcome with
    | thrown msg => simp [ArgMode.fetchSyncViaDeno, resultInv]
    | completed output =>
        by_cases hc : output.code = 0
        · cases hp : ArgMode.parsedResultOf parse output with
          | some r =>
              rw [ArgMode.argRun_exit0_parsed url parse output r hc hp]
              exact (hcons output r rfl hp).1
          | none =>
              rw [ArgMode.argRun_exit0_noparse url parse output hc hp]
              rfl
        · cases hp : ArgMode.parsedResultOf parse output with
          | some r =>
              have ht : optStrTruthy r.error = true :=
                (hcons output r rfl hp).2 hc
              rw [ArgMode.argRun_fail_parsedErr url parse output r hc hp ht]
              exact (hcons output r rfl hp).1
          | none =>
              have hsome : ∀ r',
                  ArgMode.parsedResultOf parse output = some r' →
                  optStrTruthy r'.error = false := by
                intro r' hr'
                rw [hp] at hr'
                exact absurd hr' (by simp)
              rw [ArgMode.argRun_fail_synth url parse output hc hsome]
              rfl

/-- Concrete instantiation of the C2 theorem: the piped-input worker on a
404 response satisfies the invariant, and so does the piped-input Bridge
on a spawn timeout outcome (where the consistency hypothesis is vacuous). -/
theorem C2_witness :
    resultInv (PipedWorker.main
      (StdinOutcome.parsed { url := some ("http://x"), optionsIsObject := true })
      (FetchOutcome.gotResponse
        { status := 404, statusText := "Not Found", headers := [] }
        (Except.ok "nope"))).1 = true ∧
    resultInv (Piped.fetchSyncViaDeno "u" { method := none } (fun _ => none)
      (SpawnOutcome.completed
        { error := some ("spawnSync deno ETIMEDOUT"), stdout := none,
          stderr := none, status := none })) = true :=
  ⟨C2_ok_iff_status_in_2xx.1
      (StdinOutcome.parsed { url := some ("http://x"), optionsIsObject := true })
      (FetchOutcome.gotResponse
        { status := 404, statusText := "Not Found", headers := [] }
        (Except.ok "nope")),
   C2_ok_iff_status_in_2xx.2.2.1 "u" { method := none } (fun _ => none)
      (SpawnOutcome.completed
        { error := some ("spawnSync deno ETIMEDOUT"), stdout := none,
          stderr := none, status := none })
      (fun res r _ hr => absurd hr (by simp [Piped.parsedResultOf]))⟩

/-- A parsed stdout object whose `error` field is non-null but empty — the
JavaScript truthiness check `parsedResult.error` rejects it. -/
def pfrEmptyErr : FetchResult :=
  { status := none, statusText := none, ok := false, headers := [],
    body := none, error := some "" }

/-- C3 counterexample: a child run with non-zero exit code whose stdout
parses to an object with a non-null (but empty) `error` field is NOT
returned verbatim — the truthiness check `parsedResult.error` fails on the
empty string and the Bridge synthesizes its own failure result instead. -/
theorem C3_counterexample :
    Piped.parsedResultOf (fun _ => some pfrEmptyErr)
        { error := none, stdout := some ("out"), stderr := none,
          status := some 1 } = some pfrEmptyErr ∧
    Piped.exitCodeOf
        { error := none, stdout := some ("out"), stderr := none,
          status := some 1 } = 1 ∧
    pfrEmptyErr.error ≠ none ∧
    Piped.fetchSyncViaDeno "u" { method := none } (fun _ => some pfrEmptyErr)
      (SpawnOutcome.completed
        { error := none, stdout := some ("out"),
          stderr := none, status := some 1 }) ≠ pfrEmptyErr := by
  refine ⟨?_, ?_, ?_, ?_⟩ <;> decide

/-- C3 (amended): for every child run whose stdout parses as a FetchResult
object: if the computed exit code is 0, the Bridge returns the parsed
object verbatim even when its own `error` field is non-null; and if the
exit code is non-zero and the parsed object's `error` field is truthy
(non-null AND non-empty — the code's truthiness check, which the
counterexample shows is strictly stronger than non-null), the Bridge
likewise returns the parsed object verbatim. Both Bridge variants. -/
theorem C3_verbatim_return :
    (∀ url options parse res r, res.error = none →
      Piped.parsedResultOf parse res = some r →
      ((Piped.exitCodeOf res = 0 →
        Piped.fetchSyncViaDeno url options parse
          (SpawnOutcome.completed res) = r) ∧
       (Piped.exitCodeOf res ≠ 0 → optStrTruthy r.error = true →
        Piped.fetchSyncViaDeno url options parse
          (SpawnOutcome.completed res) = r))) ∧
    (∀ url parse output r, ArgMode.parsedResultOf parse output = some r →
      ((output.code = 0 →
        ArgMode.fetchSyncViaDeno url parse (RunOutcome.completed output) = r) ∧
       (output.code ≠ 0 → optStrTruthy r.error = true →
        ArgMode.fetchSyncViaDeno url parse
          (RunOutcome.completed output) = r))) := by
  constructor
  · intro url options parse res r he hp
    exact ⟨fun hc => Piped.run_exit0_parsed url options parse res r he hc hp,
      fun hc ht => Piped.run_fail_parsedErr url options parse res r he hc
        hp ht⟩
  · intro url parse output r hp
    exact ⟨fun hc => ArgMode.argRun_exit0_parsed url parse output r hc hp,
      fun hc ht => ArgMode.argRun_fail_parsedErr url parse output r hc hp ht⟩

/-- A typical Executor network-failure output: non-null truthy error. -/
def pfrNetErr : FetchResult :=
  { status := none, statusText := none, ok := false, headers := [],
    body := none, error := some ("Fetch failed: TypeError: error sending request") }

/-- Concrete instantiation of the amended C3 theorem: a non-zero-exit run
whose parsed stdout carries a truthy error is returned verbatim. -/
theorem C3_witness :
    Piped.fetchSyncViaDeno "u" { method := none } (fun _ => some pfrNetErr)
      (SpawnOutcome.completed
        { error := none, stdout := some ("out"),
          stderr := none, status := some 1 }) = pfrNetErr :=
  (C3_verbatim_return.1 "u" { method := none } (fun _ => some pfrNetErr)
    { error := none, stdout := some ("out"), stderr := none,
      status := some 1 } pfrNetErr rfl (by decide)).2 (by decide) (by decide)

/-- A partially-parsed stdout object carrying data fields but a null
`error` — the shape branch (e) of the reconciliation must preserve. -/
def pfrPartialData : FetchResult :=
  { status := some 200, statusText := some ("OK"), ok := true,
    headers := [("a", "b")], body := some ("x"), error := none }

/-- C4 counterexample: the claim fails on the argument-mode Bridge
(`src/mod.ts`). For a child run with exit code 1 whose stdout parses to an
object with `status`/`statusText` present and `error` null, that Bridge
returns `status = null` and `statusText = null` instead of preserving the
parsed values (it preserves only `headers` and `body`). -/
theorem C4_counterexample :
    ArgMode.parsedResultOf (fun _ => some pfrPartialData)
        { code := 1, stdout := "s", stderr := "" } = some pfrPartialData ∧
    pfrPartialData.status = some 200 ∧
    pfrPartialData.statusText = some ("OK") ∧
    (ArgMode.fetchSyncViaDeno "u" (fun _ => some pfrPartialData)
      (RunOutcome.completed
        { code := 1, stdout := "s", stderr := "" })).status = none ∧
    (ArgMode.fetchSyncViaDeno "u" (fun _ => some pfrPartialData)
      (RunOutcome.completed
        { code := 1, stdout := "s", stderr := "" })).statusText = none := by
  refine ⟨?_, ?_, ?_, ?_, ?_⟩ <;> decide

/-- C4 (amended): for every child run with a non-zero exit code where the
parsed stdout object is absent or has a null `error` field, the Bridge
returns a `FetchResult` with `ok` false whose `error` names the exit code
and appends the filtered stderr (or, when that is empty and parsing
failed, the raw stdout). The piped-input Bridge preserves any parsed
`status`/`statusText`/`headers`/`body`, defaulting to null/empty; the
argument-mode Bridge (per the counterexample) preserves only `headers` and
`body`, hard-coding `status` and `statusText` to null. -/
theorem C4_synth_failure_result :
    (∀ url options parse res, res.error = none →
      Piped.exitCodeOf res ≠ 0 →
      (∀ r, Piped.parsedResultOf parse res = some r → r.error = none) →
      Piped.fetchSyncViaDeno url options parse (SpawnOutcome.completed res) =
        { status := (Piped.parsedResultOf parse res).bind FetchResult.status,
          statusText :=
            (Piped.parsedResultOf parse res).bind FetchResult.statusText,
          ok := false,
          headers := Piped.parsedHeadersD (Piped.parsedResultOf parse res),
          body := (Piped.parsedResultOf parse res).bind FetchResult.body,
          error := some ("Subprocess for " ++ requestDesc url options ++
            " failed with code " ++ toString (Piped.exitCodeOf res) ++ "." ++
            (if Piped.filteredStderrOf (res.stderr.getD "") ≠ "" then
              " Stderr: " ++ Piped.filteredStderrOf (res.stderr.getD "")
             else if res.stdout.getD "" ≠ "" ∧
                 Piped.parsedResultOf parse res = none then
              " Raw stdout: " ++ res.stdout.getD ""
             else "")) }) ∧
    (∀ url parse output, output.code ≠ 0 →
      (∀ r, ArgMode.parsedResultOf parse output = some r → r.error = none) →
      ArgMode.fetchSyncViaDeno url parse (RunOutcome.completed output) =
        { status := none, statusText := none, ok := false,
          headers :=
            Piped.parsedHeadersD (ArgMode.parsedResultOf parse output),
          body := (ArgMode.parsedResultOf parse output).bind FetchResult.body,
          error := some ("Subprocess for " ++ url ++
            " failed with code " ++ toString output.code ++ "." ++
            (if ArgMode.filteredStderrOf output.stderr ≠ "" then
              " Stderr: " ++ ArgMode.filteredStderrOf output.stderr
             else if output.stdout ≠ "" ∧
                 ArgMode.parsedResultOf parse output = none then
              " Raw stdout: " ++ output.stdout
             else "")) }) := by
  constructor
  · intro url options parse res he hc hnull
    exact Piped.run_fail_synth url options parse res he hc
      (fun r hr => by simp [optStrTruthy, hnull r hr])
  · intro url parse output hc hnull
    exact ArgMode.argRun_fail_synth url parse output hc
      (fun r hr => by simp [optStrTruthy, hnull r hr])

/-- Concrete instantiation of the amended C4 theorem: the piped-input
Bridge preserves the parsed partial data on a failure-code run. -/
theorem C4_witness :
    Piped.fetchSyncViaDeno "u" { method := none }
      (fun _ => some pfrPartialData)
      (SpawnOutcome.completed
        { error := none, stdout := some ("s"), stderr := none,
          status := some 1 }) =
      { status := some 200, statusText := some ("OK"), ok := false,
        headers := [("a", "b")], body := some ("x"),
        error := some ("Subprocess for GET u failed with code 1.") } := by
  rw [C4_synth_failure_result.1 "u" { method := none }
    (fun _ => some pfrPartialData)
    { error := none, stdout := some ("s"), stderr := none, status := some 1 }
    rfl (by decide) (fun r hr => by
      simp only [Piped.parsedResultOf, Option.getD_some] at hr
      rw [if_neg (by decide)] at hr
      cases Option.some.inj hr
      rfl)]
  decide

/-- C5: for every Executor invocation the process exit code is 0 iff the
Executor obtained a response and fully read its body, independently of the
HTTP status; and on that path `error` is null while `ok` mirrors the HTTP
status, so a 404 or 500 run still exits 0 with `ok` false and `error`
null. Usage/validation errors, body-read failures, and network-layer
failures all exit 1. Both Executor workers. -/
theorem C5_exit_code_contract :
    (∀ stdin f, (PipedWorker.main stdin f).2 = 0 ↔
      (PipedWorker.inputErrOf stdin = none ∧
        ∃ resp body, f = FetchOutcome.gotResponse resp (Except.ok body))) ∧
    (∀ args f, (ArgWorker.main args f).2 = 0 ↔
      (ArgWorker.usageError args = false ∧
        ∃ resp body, f = FetchOutcome.gotResponse resp (Except.ok body))) ∧
    (∀ stdin resp body, PipedWorker.inputErrOf stdin = none →
      (PipedWorker.main stdin
        (FetchOutcome.gotResponse resp (Except.ok body))).1.error = none ∧
      (PipedWorker.main stdin
        (FetchOutcome.gotResponse resp (Except.ok body))).1.ok =
        ResponseM.ok resp) ∧
    (∀ args resp body, ArgWorker.usageError args = false →
      (ArgWorker.main args
        (FetchOutcome.gotResponse resp (Except.ok body))).1.error = none ∧
      (ArgWorker.main args
        (FetchOutcome.gotResponse resp (Except.ok body))).1.ok =
        ResponseM.ok resp) := by
  refine ⟨?_, ?_, ?_, ?_⟩
  · intro stdin f
    cases hi : PipedWorker.inputErrOf stdin with
    | some msg => simp [PipedWorker.main, hi]
    | none =>
        cases f with
        | fetchError errText => simp [PipedWorker.main, hi]
        | gotResponse resp bodyResult =>
            cases bodyResult with
            | ok body => simp [PipedWorker.main, hi]
            | error msg => simp [PipedWorker.main, hi]
  · intro args f
    by_cases hu : ArgWorker.usageError args
    · simp [ArgWorker.main, hu]
    · cases f with
      | fetchError errText => simp [ArgWorker.main, hu]
      | gotResponse resp bodyResult =>
          cases bodyResult with
          | ok body => simp [ArgWorker.main, hu]
          | error msg => simp [ArgWorker.main, hu]
  · intro stdin resp body hi
    constructor <;> simp [PipedWorker.main, hi]
  · intro args resp body hu
    constructor <;> simp [ArgWorker.main, hu]

/-- Concrete instantiation of the C5 theorem: a 404 response with a fully
read body exits 0 with `ok` false and `error` null. -/
theorem C5_witness :
    (ArgWorker.main ["http://x"]
      (FetchOutcome.gotResponse
        { status := 404, statusText := "Not Found", headers := [] }
        (Except.ok "nope"))).2 = 0 ∧
    (ArgWorker.main ["http://x"]
      (FetchOutcome.gotResponse
        { status := 404, statusText := "Not Found", headers := [] }
        (Except.ok "nope"))).1.error = none :=
  ⟨(C5_exit_code_contract.2.1 ["http://x"]
      (FetchOutcome.gotResponse
        { status := 404, statusText := "Not Found", headers := [] }
        (Except.ok "nope"))).mpr
      ⟨by decide, ⟨{ status := 404, statusText := "Not Found", headers := [] },
        "nope", rfl⟩⟩,
   (C5_exit_code_contract.2.2.2 ["http://x"]
      { status := 404, statusText := "Not Found", headers := [] } "nope"
      (by decide)).1⟩

/-- C6: on a body-read failure, both Executors emit the already-obtained
`status`/`statusText`/`headers`, with `ok` still determined by the
original HTTP status (not forced false), `body` null, a non-null error
describing the read failure, and exit code 1. -/
theorem C6_body_read_failure :
    (∀ stdin resp msg, PipedWorker.inputErrOf stdin = none →
      PipedWorker.main stdin
        (FetchOutcome.gotResponse resp (Except.error msg)) =
        ({ status := some resp.status, statusText := some resp.statusText,
           ok := ResponseM.ok resp, headers := recordOfHeaders resp.headers,
           body := none,
           error := some ("Failed to read response body: " ++ msg) }, 1)) ∧
    (∀ args resp msg, ArgWorker.usageError args = false →
      ArgWorker.main args
        (FetchOutcome.gotResponse resp (Except.error msg)) =
        ({ status := some resp.status, statusText := some resp.statusText,
           ok := ResponseM.ok resp, headers := recordOfHeaders resp.headers,
           body := none,
           error := some ("Failed to read response body: " ++ msg) }, 1)) := by
  constructor
  · intro stdin resp msg hi
    simp [PipedWorker.main, hi]
  · intro args resp msg hu
    simp [ArgWorker.main, hu]

/-- Concrete instantiation of the C6 theorem: a 404 response whose body
read fails keeps status 404 and `ok` false per the original status. -/
theorem C6_witness :
    PipedWorker.main
      (StdinOutcome.parsed { url := some ("http://x"), optionsIsObject := true })
      (FetchOutcome.gotResponse
        { status := 404, statusText := "Not Found",
          headers := [("a", "b"), ("a", "c")] }
        (Except.error "stream interrupted")) =
      ({ status := some 404, statusText := some ("Not Found"), ok := false,
         headers := [("a", "c")], body := none,
         error := some ("Failed to read response body: stream interrupted") },
       1) := by
  rw [C6_body_read_failure.1
    (StdinOutcome.parsed { url := some ("http://x"), optionsIsObject := true })
    { status := 404, statusText := "Not Found",
      headers := [("a", "b"), ("a", "c")] }
    "stream interrupted" (by decide)]
  decide

/-- C7: in piped-input mode, every stdin content that fails to parse
(including empty stdin), or parses with a missing/empty/non-string `url`,
or with a non-object `options`, makes the Executor emit a `FetchResult`
with null `status`/`statusText`/`body`, `ok` false, empty `headers`, and a
non-null error reflecting the specific validation failure, and exit with
code 1; the result does not depend on the fetch oracle, i.e. no fetch is
performed. -/
theorem C7_piped_input_validation :
    (∀ stdin f msg, PipedWorker.inputErrOf stdin = some msg →
      PipedWorker.main stdin f =
        ({ status := none, statusText := none, ok := false, headers := [],
           body := none,
           error := some ("Worker: Failed to process stdin: " ++ msg) }, 1)) ∧
    (∀ m, PipedWorker.inputErrOf (StdinOutcome.readError m) = some m) ∧
    (∀ b, PipedWorker.inputErrOf
        (StdinOutcome.parsed { url := none, optionsIsObject := b }) =
      some ("Invalid or missing \x27url\x27 in stdin JSON.")) ∧
    (∀ b, PipedWorker.inputErrOf
        (StdinOutcome.parsed { url := some (""), optionsIsObject := b }) =
      some ("Invalid or missing \x27url\x27 in stdin JSON.")) ∧
    (∀ u, u ≠ "" → PipedWorker.inputErrOf
        (StdinOutcome.parsed { url := some u, optionsIsObject := false }) =
      some ("Invalid or missing \x27options\x27 object in stdin JSON.")) := by
  refine ⟨?_, ?_, ?_, ?_, ?_⟩
  · intro stdin f msg hi
    simp [PipedWorker.main, hi]
  · intro m
    rfl
  · intro b
    rfl
  · intro b
    rfl
  · intro u hu
    simp [PipedWorker.inputErrOf, hu]

/-- Concrete instantiation of the C7 theorem: empty stdin raises a JSON
parse error inside the worker (modelled by its message), and the emitted
result is the validation-failure shape with exit code 1, for any fetch
oracle behaviour. -/
theorem C7_witness :
    PipedWorker.main
      (StdinOutcome.readError "Unexpected end of JSON input")
      (FetchOutcome.fetchError "unreachable") =
      ({ status := none, statusText := none, ok := false, headers := [],
         body := none,
         error := some
           ("Worker: Failed to process stdin: Unexpected end of JSON input") },
       1) :=
  C7_piped_input_validation.1
    (StdinOutcome.readError "Unexpected end of JSON input")
    (FetchOutcome.fetchError "unreachable")
    "Unexpected end of JSON input" rfl

/-- C8: a child run that exits 0 with stdout that does not parse makes the
Bridge return null `status`/`statusText`, `ok` false, empty `headers`,
`body` set to the raw unparsed stdout text, and a non-null error saying
the subprocess exited successfully but produced non-JSON output, including
the filtered stderr (or a placeholder when that is empty). Both Bridge
variants; for the piped-input Bridge the child run is one whose
`spawnSync` record reports no spawn error. -/
theorem C8_exit0_nonjson_stdout :
    (∀ url options parse res, res.error = none →
      Piped.exitCodeOf res = 0 → Piped.parsedResultOf parse res = none →
      Piped.fetchSyncViaDeno url options parse (SpawnOutcome.completed res) =
        { status := none, statusText := none, ok := false, headers := [],
          body := some (res.stdout.getD ""),
          error := some ("Subprocess for " ++ requestDesc url options ++
            " exited successfully (code 0) but produced non-JSON stdout. Stderr: " ++
            (if Piped.filteredStderrOf (res.stderr.getD "") = "" then
              "(empty)"
             else Piped.filteredStderrOf (res.stderr.getD ""))) }) ∧
    (∀ url parse output, output.code = 0 →
      ArgMode.parsedResultOf parse output = none →
      ArgMode.fetchSyncViaDeno url parse (RunOutcome.completed output) =
        { status := none, statusText := none, ok := false, headers := [],
          body := some output.stdout,
          error := some ("Subprocess for " ++ url ++
            " exited successfully (code 0) but produced non-JSON stdout. Stderr: " ++
            (if ArgMode.filteredStderrOf output.stderr = "" then "(empty)"
             else ArgMode.filteredStderrOf output.stderr)) }) := by
  constructor
  · intro url options parse res he hc hp
    exact Piped.run_exit0_noparse url options parse res he hc hp
  · intro url parse output hc hp
    exact ArgMode.argRun_exit0_noparse url parse output hc hp

/-- Concrete instantiation of the C8 theorem: exit code 0 with non-JSON
stdout and a noisy-but-filtered stderr line. -/
theorem C8_witness :
    ArgMode.fetchSyncViaDeno "http://x" (fun _ => none)
      (RunOutcome.completed
        { code := 0, stdout := "oops", stderr := "warn here" }) =
      { status := none, statusText := none, ok := false, headers := [],
        body := some ("oops"),
        error := some ("Subprocess for http://x exited successfully (code 0) but produced non-JSON stdout. Stderr: warn here") } := by
  rw [C8_exit0_nonjson_stdout.2 "http://x" (fun _ => none)
    { code := 0, stdout := "oops", stderr := "warn here" } rfl (by decide)]
  decide

/-- C9 counterexample: the claim fails on the argument-mode Bridge
(`src/mod.ts`): the options it passes to `Deno.Command` configure neither
a wall-clock timeout nor a captured-output buffer bound, so it is not the
case that every call of the Bridge applies the 30-second / 1-MiB bounds. -/
theorem C9_counterexample :
    (ArgMode.commandOptions "worker.ts" "http://x").timeout = none ∧
    (ArgMode.commandOptions "worker.ts" "http://x").maxBuffer = none ∧
    (ArgMode.commandOptions "worker.ts" "http://x").timeout ≠ some 30000 ∧
    (ArgMode.commandOptions "worker.ts" "http://x").maxBuffer ≠
      some 1048576 := by
  refine ⟨?_, ?_, ?_, ?_⟩ <;> decide

/-- C9 (amended): the piped-input Bridge invokes `spawnSync` on every call
with a 30-second timeout and a 1-MiB captured-output bound, and a
spawn-facility failure (timeout, buffer overflow, spawn error) surfaces as
a returned `FetchResult` whose `error` reports the failure — not as an
exception; the argument-mode Bridge, by contrast, applies no such bounds
to `Deno.Command`. -/
theorem C9_spawn_bounds :
    (∀ workerInputJson,
      (Piped.spawnOptions workerInputJson).timeout = some 30000 ∧
      (Piped.spawnOptions workerInputJson).maxBuffer = some 1048576) ∧
    (∀ url options parse stdout stderr status msg,
      Piped.fetchSyncViaDeno url options parse
        (SpawnOutcome.completed
          { error := some msg, stdout := stdout, stderr := stderr,
            status := status }) =
        { status := none, statusText := none, ok := false, headers := [],
          body := none,
          error := some ("Failed to execute subprocess: " ++ msg) }) ∧
    (∀ workerScriptPath url,
      (ArgMode.commandOptions workerScriptPath url).timeout = none ∧
      (ArgMode.commandOptions workerScriptPath url).maxBuffer = none) := by
  refine ⟨?_, ?_, ?_⟩
  · intro workerInputJson
    exact ⟨rfl, rfl⟩
  · intro url options parse stdout stderr status msg
    exact Piped.run_spawnErr url options parse
      { error := some msg, stdout := stdout, stderr := stderr,
        status := status } msg rfl
  · intro workerScriptPath url
    exact ⟨rfl, rfl⟩

/-- C10: in the piped-input Bridge, a spawn result with no spawn error and
a null exit status (a child killed by a signal) gets its exit code
computed as `status || 0 = 0` and is reconciled through the success-exit
branches: parseable stdout is returned verbatim, unparseable stdout yields
the "exited successfully (code 0) but produced non-JSON stdout" result,
never the failure-code result. -/
theorem C10_null_status_reconciled_as_success :
    ∀ url options parse res, res.error = none → res.status = none →
      Piped.exitCodeOf res = 0 ∧
      (∀ r, Piped.parsedResultOf parse res = some r →
        Piped.fetchSyncViaDeno url options parse
          (SpawnOutcome.completed res) = r) ∧
      (Piped.parsedResultOf parse res = none →
        Piped.fetchSyncViaDeno url options parse
          (SpawnOutcome.completed res) =
          { status := none, statusText := none, ok := false, headers := [],
            body := some (res.stdout.getD ""),
            error := some ("Subprocess for " ++ requestDesc url options ++
              " exited successfully (code 0) but produced non-JSON stdout. Stderr: " ++
              (if Piped.filteredStderrOf (res.stderr.getD "") = "" then
                "(empty)"
               else Piped.filteredStderrOf (res.stderr.getD ""))) }) := by
  intro url options parse res he hs
  have hc : Piped.exitCodeOf res = 0 := by
    simp [Piped.exitCodeOf, hs]
  refine ⟨hc, ?_, ?_⟩
  · intro r hp
    exact Piped.run_exit0_parsed url options parse res r he hc hp
  · intro hp
    exact Piped.run_exit0_noparse url options parse res he hc hp

/-- Concrete instantiation of the C10 theorem: a signal-killed child (null
status) whose captured stdout still parses is returned verbatim. -/
theorem C10_witness :
    Piped.exitCodeOf
        { error := none, stdout := some ("out"), stderr := none,
          status := none } = 0 ∧
    Piped.fetchSyncViaDeno "u" { method := none } (fun _ => some pfrNetErr)
      (SpawnOutcome.completed
        { error := none, stdout := some ("out"), stderr := none,
          status := none }) = pfrNetErr :=
  ⟨(C10_null_status_reconciled_as_success "u" { method := none }
      (fun _ => some pfrNetErr)
      { error := none, stdout := some ("out"), stderr := none,
        status := none } rfl rfl).1,
   (C10_null_status_reconciled_as_success "u" { method := none }
      (fun _ => some pfrNetErr)
      { error := none, stdout := some ("out"), stderr := none,
        status := none } rfl rfl).2.1 pfrNetErr (by decide)⟩
